import Mathlib

/-!
Shallow embedding of the chat-assistant workflow core
(src/schemas.py, src/utils.py, src/nodes.py, src/graph.py).

Modelling conventions:
- Messages are modelled in their dict form (role, content), the declared
  state shape of GraphState.messages; get_message_content reads content.
- The external Groq client is modelled by an environment parameter
  env : Option String (the GROQ_API_KEY variable) and by oracles giving the
  outcome of each generation attempt: oracle i is the result of the i-th
  structured invoke (some a = a response that parsed and validated, none =
  any call failure, schema mismatch and transport error alike); the
  free-form completion of answer_node is a single Except String String
  whose error payload is the exception text str(e).
- The tiktoken encoder is an abstract parameter enc : String → Nat;
  count_tokens wraps it exactly as utils.count_tokens wraps ENCODER.encode.
- Blocking sleeps between retry attempts are recorded as a list of delays
  in half-second units: the source sleeps 0.5 * (attempt + 1) seconds.
- Prompt strings sent to the model never influence any state field except
  final_augmented_context; the pieces that do flow into state
  (context_text, format_summary_for_prompt) are embedded faithfully, the
  purely prompt-side text is not re-transcribed.
-/

/-- Message in dict form: role and content strings (schemas.GraphState
declares messages as a list of dicts with role and content keys). -/
structure Message where
  role : String
  content : String
deriving DecidableEq

/-- The message_range_summarized dict with keys "from" and "to"; from is a
Lean keyword, so the fields are named msgFrom and msgTo. -/
structure MessageRange where
  msgFrom : Nat
  msgTo : Nat
deriving DecidableEq

/-- schemas.SessionSummary. user_profile is a string-to-string mapping in
insertion order, modelled as an association list. -/
structure SessionSummary where
  user_profile : List (String × String)
  key_facts : List String
  decisions : List String
  open_questions : List String
  todos : List String
  message_range_summarized : MessageRange
deriving DecidableEq

/-- The default SessionSummary produced by the field default factories:
empty containers and message range from 0 to 0. -/
def SessionSummary.initial : SessionSummary :=
  { user_profile := []
    key_facts := []
    decisions := []
    open_questions := []
    todos := []
    message_range_summarized := { msgFrom := 0, msgTo := 0 } }

/-- schemas.QueryAnalysis after validation. original_query is required; the
remaining optional fields default to None. -/
structure QueryAnalysis where
  original_query : String
  is_ambiguous : Bool
  rewritten_query : Option String
  needed_context_from_memory : Option (List String)
  final_augmented_context : Option String
  clarifying_questions : Option (List String)
deriving DecidableEq

/-- The five SessionSummary field names accepted by the
validate_memory_fields field validator. -/
def valid_fields : List String :=
  ["user_profile", "key_facts", "decisions", "open_questions", "todos"]

/-- schemas.QueryAnalysis.validate_memory_fields: None passes through;
otherwise entries outside valid_fields are filtered out (silently dropped),
and a list with no invalid entry is returned as is. -/
def validate_memory_fields (v : Option (List String)) : Option (List String) :=
  match v with
  | none => none
  | some v =>
    let invalid_fields := v.filter (fun f => !(valid_fields.contains f))
    if !invalid_fields.isEmpty then
      some (v.filter (fun f => valid_fields.contains f))
    else
      some v

/-- schemas.QueryAnalysis.validate_ambiguity_logic: when is_ambiguous is
false and clarifying_questions is truthy (present and non-empty), the
questions are cleared to None. -/
def validate_ambiguity_logic (is_ambiguous : Bool) (cq : Option (List String)) :
    Option (List String) :=
  if !is_ambiguous && !(cq.getD []).isEmpty then none else cq

/-- Exceptions that escape a node uncaught. -/
inductive UncaughtError
  | validation_missing_field (field : String)
deriving DecidableEq

/-- Pydantic construction of a QueryAnalysis from keyword arguments.
original_query has no default, so omitting it (none) raises a
ValidationError; otherwise the field validators run and the object is
returned. -/
def QueryAnalysis.construct (original_query : Option String) (is_ambiguous : Bool)
    (rewritten_query : Option String) (needed_context_from_memory : Option (List String))
    (final_augmented_context : Option String) (clarifying_questions : Option (List String)) :
    Except UncaughtError QueryAnalysis :=
  match original_query with
  | none => .error (.validation_missing_field "original_query")
  | some q =>
    .ok { original_query := q
          is_ambiguous := is_ambiguous
          rewritten_query := rewritten_query
          needed_context_from_memory := validate_memory_fields needed_context_from_memory
          final_augmented_context := final_augmented_context
          clarifying_questions := validate_ambiguity_logic is_ambiguous clarifying_questions }

/-- schemas.GraphState. All five keys are declared (required) fields of the
TypedDict; clarification_count reads through .get with default 0, which is
observationally the plain field since every write keeps the key present. -/
structure GraphState where
  messages : List Message
  summary : SessionSummary
  analysis : QueryAnalysis
  current_token_count : Nat
  clarification_count : Nat
deriving DecidableEq

/-- The vacuous analysis used by graph.initialize_state:
QueryAnalysis(original_query = "", is_ambiguous = False). -/
def initial_analysis : QueryAnalysis :=
  { original_query := ""
    is_ambiguous := false
    rewritten_query := none
    needed_context_from_memory := none
    final_augmented_context := none
    clarifying_questions := none }

/-- graph.initialize_state. -/
def initialize_state : GraphState :=
  { messages := []
    summary := SessionSummary.initial
    analysis := initial_analysis
    current_token_count := 0
    clarification_count := 0 }

/-- Python "sep".join(parts). -/
def join_with (sep : String) : List String → String
  | [] => ""
  | [a] => a
  | a :: rest => a ++ sep ++ join_with sep rest

/-- utils.count_tokens: empty text counts 0, otherwise the opaque tiktoken
encoder enc is applied. -/
def count_tokens (enc : String → Nat) (text : String) : Nat :=
  if text = "" then 0 else enc text

/-- How utils.messages_to_text renders one dict message: role, colon,
space, content. -/
def render_message (m : Message) : String :=
  m.role ++ ": " ++ m.content

/-- utils.messages_to_text: newline-joined role-prefixed lines. -/
def messages_to_text (msgs : List Message) : String :=
  join_with "\n" (msgs.map render_message)

/-- Lines contributed by one list-valued summary field in
utils.format_summary_for_prompt: nothing when empty, otherwise a header
line followed by two-space-indented dash items. -/
def render_list_field (header : String) (items : List String) : List String :=
  if items.isEmpty then [] else header :: items.map (fun item => "  - " ++ item)

/-- utils.format_summary_for_prompt. Field names are rendered with their
title-cased headings; names that are not among the five summary content
fields contribute nothing (they never occur through a validated analysis).
The newline that f-string interpolation puts in front of each heading is
part of the heading string. -/
def format_summary_for_prompt (summary : SessionSummary) (fields : List String) : String :=
  if fields.isEmpty then ""
  else
    let sections := "=== SESSION MEMORY ===" ::
      fields.flatMap (fun field =>
        match field with
        | "user_profile" =>
          if summary.user_profile.isEmpty then []
          else "\nUser Profile:" ::
            summary.user_profile.map (fun kv => "  - " ++ kv.1 ++ ": " ++ kv.2)
        | "key_facts" => render_list_field "\nKey Facts:" summary.key_facts
        | "decisions" => render_list_field "\nDecisions:" summary.decisions
        | "open_questions" => render_list_field "\nOpen Questions:" summary.open_questions
        | "todos" => render_list_field "\nTodos:" summary.todos
        | _ => [])
    if sections.length > 1 then join_with "\n" sections else ""

/-- nodes.get_message_content for a dict message: the content value. -/
def get_message_content (m : Message) : String :=
  m.content

/-- Python list slicing l[-n:]: the last n entries (the whole list when it
is shorter than n). -/
def lastN (n : Nat) (l : List α) : List α :=
  l.drop (l.length - n)

/-- The rendering the node functions use for one dict message inside their
inline prompt joins: role user renders as user, any other dict role falls
into the getattr(msg, type, unknown) branch and renders as unknown. -/
def render_node_message (m : Message) : String :=
  (if m.role = "user" then "user" else "unknown") ++ ": " ++ m.content

/-- nodes.get_groq_client: raises ValueError when GROQ_API_KEY is absent,
otherwise yields a client (opaque; its calls go through the oracles). -/
def get_groq_client (env : Option String) : Except String Unit :=
  match env with
  | none => .error "GROQ_API_KEY environment variable not set"
  | some _ => .ok ()

/-- nodes.GROQ retry loop: for attempt in range(max_retries), invoke; on
success return the response, on failure sleep 0.5 * (attempt + 1) seconds
and continue unless this was the final attempt, in which case the last
error is re-raised (and caught by the surrounding handler). The first
component is the first successful response within the budget; the second
records the sleeps performed, in half-second units. -/
def retry_invoke (oracle : Nat → Option α) : Nat → Nat → Option α × List Nat
  | 0, _ => (none, [])
  | 1, attempt =>
    match oracle attempt with
    | some v => (some v, [])
    | none => (none, [])
  | fuel + 2, attempt =>
    match oracle attempt with
    | some v => (some v, [])
    | none =>
      let r := retry_invoke oracle (fuel + 1) (attempt + 1)
      (r.1, (attempt + 1) :: r.2)

/-- Retry budget used by analyze_query_node and summarize_node. -/
def max_retries : Nat := 3

/-- One structured-output call sequence with the standard 3-attempt budget,
starting at attempt 0. -/
def run_structured (oracle : Nat → Option α) : Option α × List Nat :=
  retry_invoke oracle max_retries 0

/-- Fallback analysis built by the outer exception handler of
analyze_query_node: QueryAnalysis(original_query = latest, is_ambiguous =
False, needed_context_from_memory = []), run through the validators. -/
def fallback_analysis (latest_message : String) : QueryAnalysis :=
  { original_query := latest_message
    is_ambiguous := false
    rewritten_query := none
    needed_context_from_memory := validate_memory_fields (some [])
    final_augmented_context := none
    clarifying_questions := validate_ambiguity_logic false none }

/-- nodes.analyze_query_node. Returns the resulting state (or the uncaught
exception) together with the list of backoff sleeps performed. The
empty-message branch constructs a QueryAnalysis without original_query,
outside any try block. A missing GROQ_API_KEY raises inside the outer try
and is converted by the generic handler into the fallback analysis. -/
def analyze_query_node (env : Option String) (oracle : Nat → Option QueryAnalysis)
    (state : GraphState) : Except UncaughtError GraphState × List Nat :=
  let messages := state.messages
  let summary := state.summary
  if messages.isEmpty then
    match QueryAnalysis.construct none false none (some []) none none with
    | .error e => (.error e, [])
    | .ok a => (.ok { state with analysis := a }, [])
  else
    let latest_message := (messages.getLast?.map get_message_content).getD ""
    let recent_context := if messages.length > 5 then lastN 5 messages else messages
    let context_text := join_with "\n" (recent_context.map render_node_message)
    match get_groq_client env with
    | .error _ => (.ok { state with analysis := fallback_analysis latest_message }, [])
    | .ok _ =>
      let r := run_structured oracle
      match r.1 with
      | some response =>
        let response := { response with original_query := latest_message }
        let response :=
          if !(response.needed_context_from_memory.getD []).isEmpty then
            let memory_context :=
              format_summary_for_prompt summary (response.needed_context_from_memory.getD [])
            let augmented := memory_context ++ "\n\nRecent conversation:\n" ++ context_text
            { response with final_augmented_context := some augmented }
          else response
        (.ok { state with analysis := response }, r.2)
      | none => (.ok { state with analysis := fallback_analysis latest_message }, r.2)

/-- nodes.TOKEN_THRESHOLD. -/
def TOKEN_THRESHOLD : Nat := 800

/-- nodes.summarize_node. The unsummarized slice starts at the stored
message_range_summarized to index; an empty slice is an immediate no-op.
On a successful structured response the message range is overwritten to
cover all messages at call time, the live list is truncated to its last 5
entries, and the token count is recomputed over that tail. Any failure
(missing key, or all attempts failing) leaves the state untouched. -/
def summarize_node (env : Option String) (enc : String → Nat)
    (oracle : Nat → Option SessionSummary) (state : GraphState) : GraphState :=
  let messages := state.messages
  let current_summary := state.summary
  let last_summarized_index := current_summary.message_range_summarized.msgTo
  let messages_to_summarize := messages.drop last_summarized_index
  if messages_to_summarize.isEmpty then state
  else
    match get_groq_client env with
    | .error _ => state
    | .ok _ =>
      match (run_structured oracle).1 with
      | some response =>
        let response := { response with
          message_range_summarized := { msgFrom := 0, msgTo := messages.length } }
        let state := { state with summary := response }
        let state := { state with messages := lastN 5 messages }
        { state with current_token_count := count_tokens enc (messages_to_text state.messages) }
      | none => state

/-- nodes.answer_node. A successful free-form call appends one assistant
message, recomputes the token count over the previous history text plus
the rendered new reply, and resets clarification_count to 0. Any exception
(missing key or call failure) is caught and turned into an in-conversation
apology message, with counters untouched. -/
def answer_node (env : Option String) (enc : String → Nat)
    (oracle : Except String String) (state : GraphState) : GraphState :=
  let messages := state.messages
  if messages.isEmpty then state
  else
    let result :=
      match get_groq_client env with
      | .error e => Except.error e
      | .ok _ => oracle
    match result with
    | .ok content =>
      let new_message : Message := { role := "assistant", content := content }
      let new_count := count_tokens enc (messages_to_text state.messages ++ "\nassistant: " ++ content)
      let state := { state with current_token_count := new_count }
      let state := { state with clarification_count := 0 }
      { state with messages := state.messages ++ [new_message] }
    | .error e =>
      let error_msg : Message :=
        { role := "assistant", content := "I apologize, but I encountered an error: " ++ e }
      { state with messages := state.messages ++ [error_msg] }

/-- The clarification text selected by nodes.clarify_node: generic prompt
when no questions are available, a single question verbatim, several
questions as a bulleted list under a fixed preamble. -/
def clarification_text (analysis : QueryAnalysis) : String :=
  match analysis.clarifying_questions.getD [] with
  | [] => "I\x27m not sure I understand. Could you please provide more details?"
  | [q] => q
  | qs => "I need some clarification:\n\n" ++ join_with "\n" (qs.map (fun q => "- " ++ q))

/-- nodes.clarify_node: increments the clarification counter, selects the
clarification text, increments the counter once more just before
returning, and appends the assistant message (via the add_messages append
reducer). -/
def clarify_node (state : GraphState) : GraphState :=
  let analysis := state.analysis
  let clarification_count := state.clarification_count
  let state := { state with clarification_count := clarification_count + 1 }
  let clarification := clarification_text analysis
  let new_message : Message := { role := "assistant", content := clarification }
  let state := { state with clarification_count := state.clarification_count + 1 }
  { state with messages := state.messages ++ [new_message] }

/-- graph.MAX_CLARIFICATION_ATTEMPTS. -/
def MAX_CLARIFICATION_ATTEMPTS : Nat := 1

/-- Outcome of the should_clarify routing decision. -/
inductive Route
  | clarify
  | answer
deriving DecidableEq

/-- graph.should_clarify. analysis is a required state field, so
state.get("analysis") always yields it (a pydantic object, always truthy);
the guard forces answer once the counter reaches the budget. -/
def should_clarify (state : GraphState) : Route :=
  if state.clarification_count ≥ MAX_CLARIFICATION_ATTEMPTS then .answer
  else if state.analysis.is_ambiguous then .clarify
  else .answer

/-- Outcome of the should_summarize routing decision. -/
inductive Route2
  | summarize
  | finish
deriving DecidableEq

/-- graph.should_summarize. -/
def should_summarize (state : GraphState) : Route2 :=
  if state.current_token_count > TOKEN_THRESHOLD then .summarize else .finish

/-- One Summarizer execution environment: key presence, encoder, and the
attempt outcomes of its structured call. -/
structure SummarizerRun where
  env : Option String
  enc : String → Nat
  oracle : Nat → Option SessionSummary

/-- A sequence of Summarizer executions applied in order. -/
def run_summarizers : List SummarizerRun → GraphState → GraphState
  | [], s => s
  | c :: cs, s => run_summarizers cs (summarize_node c.env c.enc c.oracle s)

/-! Helper lemmas shared by the verification theorems. -/

theorem join_with_append (sep x : String) :
    ∀ (l : List String), l ≠ [] →
      join_with sep (l ++ [x]) = join_with sep l ++ sep ++ x := by
  intro l
  induction l with
  | nil => intro h; exact absurd rfl h
  | cons a t ih =>
    intro _
    cases t with
    | nil => rfl
    | cons b t2 =>
      have ih2 := ih (by simp)
      calc join_with sep ((a :: b :: t2) ++ [x])
          = a ++ sep ++ join_with sep ((b :: t2) ++ [x]) := rfl
        _ = a ++ sep ++ (join_with sep (b :: t2) ++ sep ++ x) := by rw [ih2]
        _ = join_with sep (a :: b :: t2) ++ sep ++ x := by
            show _ = a ++ sep ++ join_with sep (b :: t2) ++ sep ++ x
            simp only [String.append_assoc]

theorem messages_to_text_append_assistant (l : List Message) (c : String) (h : l ≠ []) :
    messages_to_text (l ++ [{ role := "assistant", content := c }]) =
      messages_to_text l ++ "\nassistant: " ++ c := by
  unfold messages_to_text
  rw [List.map_append]
  have hm : l.map render_message ≠ [] := by simpa using h
  rw [show ([({ role := "assistant", content := c } : Message)].map render_message) =
        ["assistant: " ++ c] from rfl]
  rw [join_with_append "\n" ("assistant: " ++ c) (l.map render_message) hm]
  simp only [String.append_assoc]
  congr 1

theorem retry_invoke_congr (oracle oracle' : Nat → Option α) :
    ∀ (fuel attempt : Nat),
      (∀ i, attempt ≤ i → i < attempt + fuel → oracle i = oracle' i) →
      retry_invoke oracle fuel attempt = retry_invoke oracle' fuel attempt := by
  intro fuel
  induction fuel with
  | zero => intro attempt _; rfl
  | succ n ih =>
    intro attempt h
    have h0 : oracle attempt = oracle' attempt := h attempt le_rfl (by omega)
    rcases n with _ | f2
    · cases he : oracle' attempt with
      | some v => simp [retry_invoke, h0, he]
      | none => simp [retry_invoke, h0, he]
    · cases he : oracle' attempt with
      | some v => simp [retry_invoke, h0, he]
      | none =>
        have hrec := ih (attempt + 1) (fun i h1 h2 => h i (by omega) (by omega))
        simp [retry_invoke, h0, he, hrec]

theorem run_structured_all_fail (oracle : Nat → Option α)
    (h : ∀ i < max_retries, oracle i = none) :
    run_structured oracle = (none, [1, 2]) := by
  have h0 := h 0 (by decide)
  have h1 := h 1 (by decide)
  have h2 := h 2 (by decide)
  simp [run_structured, max_retries, retry_invoke, h0, h1, h2]

theorem summarize_node_msgTo_le (env : Option String) (enc : String → Nat)
    (oracle : Nat → Option SessionSummary) (s : GraphState) :
    s.summary.message_range_summarized.msgTo ≤
      (summarize_node env enc oracle s).summary.message_range_summarized.msgTo := by
  simp only [summarize_node]
  split
  · exact le_refl _
  next hne =>
    split
    · exact le_refl _
    · split
      next resp hresp =>
        have hlt : s.summary.message_range_summarized.msgTo < s.messages.length := by
          by_contra hge
          push_neg at hge
          exact hne (by simp [List.isEmpty_iff, List.drop_eq_nil_iff.mpr hge])
        simpa using le_of_lt hlt
      · exact le_refl _

/-! Sample data used by the witness theorems. -/

/-- A six-message conversation used by the Summarizer witnesses. -/
def sample_messages : List Message :=
  [{ role := "user", content := "m1" }, { role := "assistant", content := "m2" },
   { role := "user", content := "m3" }, { role := "assistant", content := "m4" },
   { role := "user", content := "m5" }, { role := "assistant", content := "m6" }]

/-- A state over the token threshold with nothing summarized yet. -/
def sample_state : GraphState :=
  { messages := sample_messages
    summary := SessionSummary.initial
    analysis := initial_analysis
    current_token_count := 900
    clarification_count := 0 }

/-- A generated summary whose proposed message range disagrees with the
forced one, to exercise the supersede-the-generator behavior. -/
def sample_response : SessionSummary :=
  { SessionSummary.initial with
    key_facts := ["fact"]
    message_range_summarized := { msgFrom := 3, msgTo := 4 } }

/-- A one-message state. -/
def sample_state1 : GraphState :=
  { messages := [{ role := "user", content := "hi" }]
    summary := SessionSummary.initial
    analysis := initial_analysis
    current_token_count := 0
    clarification_count := 0 }

/-! Verification of the specified claims. -/

/-- C1: should_clarify selects the Clarifier exactly when the
clarification counter is still below MAX_CLARIFICATION_ATTEMPTS (= 1) and
the analysis (a required, hence always present, state field) reports
ambiguity; in every other case, in particular whenever the counter has
reached the budget regardless of ambiguity, it selects the Answerer. -/
theorem should_clarify_spec (s : GraphState) :
    (should_clarify s = Route.clarify ↔
      (s.clarification_count < MAX_CLARIFICATION_ATTEMPTS ∧ s.analysis.is_ambiguous = true))
    ∧ (should_clarify s = Route.answer ↔
      ¬(s.clarification_count < MAX_CLARIFICATION_ATTEMPTS ∧ s.analysis.is_ambiguous = true)) := by
  rcases Nat.lt_or_ge s.clarification_count MAX_CLARIFICATION_ATTEMPTS with h1 | h1
  · cases h2 : s.analysis.is_ambiguous
    · simp [should_clarify, Nat.not_le.mpr h1, h2]
    · simp [should_clarify, Nat.not_le.mpr h1, h2, h1]
  · simp [should_clarify, h1, Nat.not_lt.mpr h1]

/-- C2: every execution of clarify_node appends exactly one assistant
message (through the add_messages append reducer) and increases
clarification_count by exactly 2 (one increment mid-execution and a second
one just before returning), for every input state. -/
theorem clarify_node_spec (s : GraphState) :
    (∃ m : Message, m.role = "assistant" ∧ (clarify_node s).messages = s.messages ++ [m])
    ∧ (clarify_node s).clarification_count = s.clarification_count + 2 :=
  ⟨⟨{ role := "assistant", content := clarification_text s.analysis }, rfl, rfl⟩, rfl⟩

/-- C3: after a successful summarize_node run on a state with a non-empty
unsummarized slice, the summary message range is forcibly 0 to the total
message count at call time regardless of what the generator returned, the
live message list is the last-5 tail of the pre-truncation list, and
current_token_count is count_tokens of exactly that retained tail. -/
theorem summarize_node_success_spec (k : String) (enc : String → Nat)
    (oracle : Nat → Option SessionSummary) (s : GraphState)
    (hslice : s.summary.message_range_summarized.msgTo < s.messages.length)
    (hok : ((run_structured oracle).1).isSome = true) :
    (summarize_node (some k) enc oracle s).summary.message_range_summarized =
        { msgFrom := 0, msgTo := s.messages.length }
    ∧ (summarize_node (some k) enc oracle s).messages = lastN 5 s.messages
    ∧ (summarize_node (some k) enc oracle s).current_token_count =
        count_tokens enc (messages_to_text (lastN 5 s.messages)) := by
  obtain ⟨resp, hresp⟩ := Option.isSome_iff_exists.mp hok
  have hne : (s.messages.drop s.summary.message_range_summarized.msgTo).isEmpty = false := by
    rw [List.isEmpty_eq_false]
    intro hd
    rw [List.drop_eq_nil_iff] at hd
    omega
  simp [summarize_node, hne, get_groq_client, hresp]

/-- C3 witness: a concrete six-message state over the threshold, a
concrete generated summary proposing a different range, and the length
encoder. -/
theorem summarize_node_success_witness :
    (sample_state.summary.message_range_summarized.msgTo < sample_state.messages.length
      ∧ ((run_structured (fun _ => some sample_response)).1).isSome = true)
    ∧ ((summarize_node (some "k") String.length (fun _ => some sample_response)
          sample_state).summary.message_range_summarized = { msgFrom := 0, msgTo := 6 }
      ∧ (summarize_node (some "k") String.length (fun _ => some sample_response)
          sample_state).messages = lastN 5 sample_state.messages
      ∧ (summarize_node (some "k") String.length (fun _ => some sample_response)
          sample_state).current_token_count =
            count_tokens String.length (messages_to_text (lastN 5 sample_state.messages))) := by
  have h := summarize_node_success_spec "k" String.length (fun _ => some sample_response)
    sample_state (by decide) (by decide)
  exact ⟨⟨by decide, by decide⟩, h.1, h.2.1, h.2.2⟩

/-- C4: message_range_summarized.msgTo is monotonically non-decreasing
across every sequence of Summarizer executions, whether each execution
succeeds, fails, or is a no-op. -/
theorem message_range_to_monotone (runs : List SummarizerRun) (s : GraphState) :
    s.summary.message_range_summarized.msgTo ≤
      (run_summarizers runs s).summary.message_range_summarized.msgTo := by
  induction runs generalizing s with
  | nil => exact le_refl _
  | cons c cs ih =>
    exact le_trans (summarize_node_msgTo_le c.env c.enc c.oracle s) (ih _)

/-- C5 (code bug): on a state with no messages the Analyzer is meant to
skip the external call and return a vacuous non-ambiguous analysis, but
the construction QueryAnalysis(is_ambiguous = False,
needed_context_from_memory = []) omits the required original_query field,
so pydantic raises a ValidationError outside any try block and the node
raises instead of returning. Evaluated at the freshly initialized state. -/
theorem analyze_query_node_empty_raises :
    (analyze_query_node (some "key") (fun _ => none) initialize_state).1 =
      Except.error (UncaughtError.validation_missing_field "original_query") := rfl

/-- C6: with a non-empty message list and every structured-generation
attempt failing, the Analyzer makes at most max_retries = 3 attempts (its
result depends only on the first three oracle entries), sleeps the
increasing backoff schedule of 1 then 2 half-seconds between them, and
returns (never raises) the fallback analysis: non-ambiguous with an empty
needed-context list. -/
theorem analyze_query_node_all_fail_spec (k : String)
    (oracle oracle' : Nat → Option QueryAnalysis) (s : GraphState)
    (hne : s.messages ≠ [])
    (hfail : ∀ i < max_retries, oracle i = none) :
    (analyze_query_node (some k) oracle s =
        (Except.ok { s with analysis :=
            fallback_analysis ((s.messages.getLast?.map get_message_content).getD "") }, [1, 2]))
    ∧ (fallback_analysis ((s.messages.getLast?.map get_message_content).getD "")).is_ambiguous
        = false
    ∧ (fallback_analysis
        ((s.messages.getLast?.map get_message_content).getD "")).needed_context_from_memory
        = some []
    ∧ List.Chain' (· < ·) (analyze_query_node (some k) oracle s).2
    ∧ ((∀ i < max_retries, oracle i = oracle' i) →
        analyze_query_node (some k) oracle s = analyze_query_node (some k) oracle' s) := by
  have hrun := run_structured_all_fail oracle hfail
  have hie : s.messages.isEmpty = false := List.isEmpty_eq_false.mpr hne
  refine ⟨?_, rfl, rfl, ?_, ?_⟩
  · simp [analyze_query_node, hie, get_groq_client, hrun]
  · have h2 : (analyze_query_node (some k) oracle s).2 = [1, 2] := by
      simp [analyze_query_node, hie, get_groq_client, hrun]
    rw [h2]
    exact List.chain'_pair.mpr (by norm_num)
  · intro hagree
    have hro : run_structured oracle = run_structured oracle' := by
      unfold run_structured
      exact retry_invoke_congr oracle oracle' max_retries 0
        (fun i _ h2 => hagree i (by simpa using h2))
    simp [analyze_query_node, hie, get_groq_client, hro]

/-- C6 witness: a one-message state with an oracle failing on every
attempt. -/
theorem analyze_query_node_all_fail_witness :
    (sample_state1.messages ≠ []
      ∧ ∀ i < max_retries, (fun _ : Nat => (none : Option QueryAnalysis)) i = none)
    ∧ analyze_query_node (some "k") (fun _ => none) sample_state1 =
        (Except.ok { sample_state1 with analysis := fallback_analysis "hi" }, [1, 2]) :=
  ⟨⟨by decide, by decide⟩,
    (analyze_query_node_all_fail_spec "k" (fun _ => none) (fun _ => none) sample_state1
      (by decide) (by decide)).1⟩

/-- C7: for every state with a non-empty message list, a successful
Answerer call appends exactly one assistant message, recomputes
current_token_count over the full retained history including the new
reply, and resets clarification_count to 0; a failed call appends the
visible apology message and leaves current_token_count and
clarification_count unchanged; and no other workflow step sets the counter
to 0 (clarify_node yields a non-zero counter, analyze_query_node and
summarize_node leave the counter untouched). -/
theorem answer_node_spec (k content e : String) (enc : String → Nat) (s : GraphState)
    (h : s.messages ≠ []) :
    ((answer_node (some k) enc (Except.ok content) s).messages =
        s.messages ++ [{ role := "assistant", content := content }]
      ∧ (answer_node (some k) enc (Except.ok content) s).current_token_count =
          count_tokens enc
            (messages_to_text (s.messages ++ [{ role := "assistant", content := content }]))
      ∧ (answer_node (some k) enc (Except.ok content) s).clarification_count = 0)
    ∧ ((answer_node (some k) enc (Except.error e) s).messages =
        s.messages ++ [{ role := "assistant", content := "I apologize, but I encountered an error: " ++ e }]
      ∧ (answer_node (some k) enc (Except.error e) s).current_token_count =
          s.current_token_count
      ∧ (answer_node (some k) enc (Except.error e) s).clarification_count =
          s.clarification_count)
    ∧ ((clarify_node s).clarification_count ≠ 0
      ∧ (∀ env2 oracle2 s2, (analyze_query_node env2 oracle2 s).1 = Except.ok s2 →
          s2.clarification_count = s.clarification_count)
      ∧ (∀ env2 enc2 oracle3,
          (summarize_node env2 enc2 oracle3 s).clarification_count =
            s.clarification_count)) := by
  have hie : s.messages.isEmpty = false := List.isEmpty_eq_false.mpr h
  refine ⟨⟨?_, ?_, ?_⟩, ⟨?_, ?_, ?_⟩, ?_, ?_, ?_⟩
  · simp [answer_node, hie, get_groq_client]
  · have hm := messages_to_text_append_assistant s.messages content h
    simp [answer_node, hie, get_groq_client, hm]
  · simp [answer_node, hie, get_groq_client]
  · simp [answer_node, hie, get_groq_client]
  · simp [answer_node, hie, get_groq_client]
  · simp [answer_node, hie, get_groq_client]
  · simp [clarify_node]
  · intro env2 oracle2 s2 hok
    cases env2 with
    | none =>
      simp [analyze_query_node, hie, get_groq_client] at hok
      subst hok
      rfl
    | some k2 =>
      cases hr : (run_structured oracle2).1 with
      | none =>
        simp [analyze_query_node, hie, get_groq_client, hr] at hok
        subst hok
        rfl
      | some resp =>
        simp [analyze_query_node, hie, get_groq_client, hr] at hok
        subst hok
        rfl
  · intro env2 enc2 oracle3
    simp only [summarize_node]
    split
    · rfl
    · split
      · rfl
      · split
        · simp
        · rfl

/-- C7 witness: the one-message state with concrete success and failure
calls. -/
theorem answer_node_spec_witness :
    (sample_state1.messages ≠ [])
    ∧ (answer_node (some "k") String.length (Except.ok "reply")
        sample_state1).clarification_count = 0
    ∧ (answer_node (some "k") String.length (Except.ok "reply") sample_state1).messages =
        sample_state1.messages ++ [{ role := "assistant", content := "reply" }]
    ∧ (answer_node (some "k") String.length (Except.error "boom")
        sample_state1).current_token_count = sample_state1.current_token_count := by
  have hw := answer_node_spec "k" "reply" "boom" String.length sample_state1 (by decide)
  exact ⟨by decide, hw.1.2.2, hw.1.1, hw.2.1.2.1⟩

/-- C8 (code bug): a missing GROQ_API_KEY raises inside each node's
try block and is caught by the generic handler, so instead of halting the
turn with a distinct signal it is converted: the Analyzer degrades to the
fallback analysis (with no retry sleeps), the Summarizer returns the state
unchanged, and the Answerer appends an in-conversation apology message.
Evaluated at a concrete one-message state with the key absent. -/
theorem groq_key_missing_is_converted :
    ((analyze_query_node none (fun _ => none) sample_state1).1 =
        Except.ok { sample_state1 with analysis := fallback_analysis "hi" }
      ∧ (analyze_query_node none (fun _ => none) sample_state1).2 = [])
    ∧ summarize_node none String.length (fun _ => none) sample_state1 = sample_state1
    ∧ answer_node none String.length (Except.ok "reply") sample_state1 =
        { sample_state1 with messages := sample_state1.messages ++
            [{ role := "assistant", content :=
                "I apologize, but I encountered an error: GROQ_API_KEY environment variable not set" }] } :=
  ⟨⟨rfl, rfl⟩, rfl, rfl⟩

/-- C9: a QueryAnalysis constructed through validation never fails on
account of needed_context_from_memory; the validated list is exactly the
supplied list filtered to the five valid summary-field names, so every
element of it is one of the five valid names and anything else is
silently dropped. -/
theorem query_analysis_memory_fields_sanitized (q : String) (amb : Bool)
    (rq fc : Option String) (needed cq : Option (List String)) :
    ∃ qa, QueryAnalysis.construct (some q) amb rq needed fc cq = Except.ok qa
      ∧ qa.needed_context_from_memory =
          needed.map (fun v => v.filter (fun f => valid_fields.contains f))
      ∧ ∀ f ∈ qa.needed_context_from_memory.getD [], f ∈ valid_fields := by
  have hval : validate_memory_fields needed =
      needed.map (fun v => v.filter (fun f => valid_fields.contains f)) := by
    cases needed with
    | none => rfl
    | some v =>
      cases hinv : (v.filter (fun f => !(valid_fields.contains f))).isEmpty with
      | true =>
        have hall : ∀ a ∈ v, valid_fields.contains a = true := by
          intro a ha
          have h0 := List.isEmpty_iff.mp hinv
          rw [List.filter_eq_nil_iff] at h0
          simpa using h0 a ha
        have hfe : v.filter (fun f => valid_fields.contains f) = v :=
          List.filter_eq_self.mpr hall
        simp only [validate_memory_fields, Option.map_some']
        rw [hinv]
        simp
        exact (List.filter_eq_self.mpr (fun a ha => by simpa using hall a ha)).symm
      | false =>
        simp only [validate_memory_fields, Option.map_some']
        rw [hinv]
        simp
  refine ⟨_, rfl, hval, ?_⟩
  show ∀ f ∈ (validate_memory_fields needed).getD [], f ∈ valid_fields
  rw [hval]
  cases needed with
  | none => intro f hf; simp at hf
  | some v =>
    intro f hf
    simp only [Option.map_some', Option.getD_some, List.mem_filter] at hf
    simpa using hf.2

/-- C10: whenever the live message count is at most the stored
message_range_summarized msgTo index, summarize_node returns the state
completely unchanged and independently of the generation oracle (no call
is made); and after a successful run the retained tail is again no longer
than the stored index, so newly appended messages stay unsummarized until
the live count exceeds it, because the slice indexes the live truncated
list. -/
theorem summarize_node_noop_spec (env : Option String) (enc : String → Nat)
    (oracle oracle' : Nat → Option SessionSummary) (s : GraphState)
    (h : s.messages.length ≤ s.summary.message_range_summarized.msgTo) :
    summarize_node env enc oracle s = s
    ∧ summarize_node env enc oracle s = summarize_node env enc oracle' s
    ∧ (∀ (s2 : GraphState) (k : String) (enc2 : String → Nat)
          (oracle2 : Nat → Option SessionSummary),
        s2.summary.message_range_summarized.msgTo < s2.messages.length →
        ((run_structured oracle2).1).isSome = true →
        (summarize_node (some k) enc2 oracle2 s2).messages.length ≤
          (summarize_node (some k) enc2 oracle2 s2).summary.message_range_summarized.msgTo) := by
  have hemp : (s.messages.drop s.summary.message_range_summarized.msgTo).isEmpty = true := by
    rw [List.isEmpty_iff, List.drop_eq_nil_iff]
    exact h
  refine ⟨?_, ?_, ?_⟩
  · simp [summarize_node, hemp]
  · simp [summarize_node, hemp]
  · intro s2 k enc2 oracle2 hlt hok
    obtain ⟨resp, hresp⟩ := Option.isSome_iff_exists.mp hok
    have hne2 : (s2.messages.drop s2.summary.message_range_summarized.msgTo).isEmpty = false := by
      rw [List.isEmpty_eq_false]
      intro hd
      rw [List.drop_eq_nil_iff] at hd
      omega
    simp [summarize_node, hne2, get_groq_client, hresp, lastN]

/-- A one-message state whose summary already covers index 5, so the live
count is below the stored msgTo index. -/
def sample_state2 : GraphState :=
  { sample_state1 with
    summary := { SessionSummary.initial with
      message_range_summarized := { msgFrom := 0, msgTo := 5 } } }

/-- C10 witness: the no-op case evaluated on a concrete covered state. -/
theorem summarize_node_noop_witness :
    (sample_state2.messages.length ≤ sample_state2.summary.message_range_summarized.msgTo)
    ∧ summarize_node (some "k") String.length (fun _ => some sample_response) sample_state2 =
        sample_state2 := by
  have hw := summarize_node_noop_spec (some "k") String.length
    (fun _ => some sample_response) (fun _ => none) sample_state2 (by decide)
  exact ⟨by decide, hw.1⟩
